import Mathlib

/-!
Shallow embedding of the RethinkDB mailbox RPC substrate
(`src/rpc/mailbox/mailbox.hpp`) and of the ReQL function-call arity check
(`src/rdb_protocol/func.cc`).

Modelling conventions:
* `peer_id_t` wraps a uuid; we model it by the uuid value as a `Nat`
  (16 bytes, so meaningful values are `< 2^128`; the nil peer is uuid 0).
* `threadnum_t` / the `thread` field of an address are signed 32-bit
  integers, modelled as `Int` with explicit range side conditions.
* `raw_mailbox_t::id_t` is `uint64_t`, modelled as `Nat`.
* A per-thread `mailbox_table_t` holds the `id -> mailbox` map; the
  manager's `one_per_thread_t<mailbox_table_t>` becomes a function
  `Int -> mailbox_table_t`, and `mailbox_tables.get()` becomes application
  at the thread the code is currently running on.
* `coro_t::spawn_now_dangerously` of `local_delivery_coroutine` is modelled
  by returning the record of the spawned task; the coroutine itself is
  modelled as the trace of scheduling-relevant events it performs plus its
  final outcome.
-/

/-- Little-endian fixed-width byte encoding: `encodeBytesLE k n` is the `k`
low-order bytes of `n`, least significant first. -/
def encodeBytesLE : Nat → Nat → List Nat
  | 0, _ => []
  | k + 1, n => n % 256 :: encodeBytesLE k (n / 256)

/-- Inverse of `encodeBytesLE`: consume `k` bytes, return the decoded value
and the remaining bytes. -/
def decodeBytesLE : Nat → List Nat → Option (Nat × List Nat)
  | 0, l => some (0, l)
  | _ + 1, [] => none
  | k + 1, b :: l =>
    match decodeBytesLE k l with
    | some (m, r) => some (b + 256 * m, r)
    | none => none

/-- Two's-complement serialization of an `int32`, as done by the archive
integer codec for the `thread` field: four little-endian bytes of the value
reduced modulo `2^32`. -/
def encodeInt32 (i : Int) : List Nat :=
  encodeBytesLE 4 (i % (2 ^ 32 : Int)).toNat

/-- Deserialize an `int32`: read four bytes, reinterpret values at or above
`2^31` as negative (two's complement). -/
def decodeInt32 (l : List Nat) : Option (Int × List Nat) :=
  match decodeBytesLE 4 l with
  | some (n, r) =>
    some ((if n < 2 ^ 31 then (n : Int) else (n : Int) - 2 ^ 32), r)
  | none => none

/-- The address of a mailbox (`raw_mailbox_t::address_t`): the peer the
mailbox lives on (modelled by its uuid), the thread on that peer, and the
mailbox id. -/
structure address_t where
  peer : Nat
  thread : Int
  mailbox_id : Nat
deriving DecidableEq, Repr

/-- Modelled from the spec: the value of `raw_mailbox_t::address_t::ANY_THREAD`
is defined in `mailbox.cc`, which is not part of the sources; the spec fixes
the sentinel to the signed value `-1` (scenario "encode((peer=7, thread=-1,
mailbox_id=2^40+3))" together with "the ANY_THREAD sentinel preserves its
signed representation"). -/
def ANY_THREAD : Int := -1

/-- An address is nil when its peer is nil (the unset uuid, modelled as 0). -/
def address_t.is_nil (a : address_t) : Bool :=
  a.peer == 0

/-- Modelled from the spec: the canonical serialization of an address is the
three fields `peer`, `thread`, `mailbox_id` in order
(`RDB_MAKE_ME_SERIALIZABLE_3(peer, thread, mailbox_id)` in `mailbox.hpp`;
the integer/uuid byte codecs themselves live in the archive headers, which
are not part of the sources, and are modelled as fixed-width little-endian
fields: 16-byte uuid, 4-byte two's-complement thread, 8-byte mailbox id). -/
def encode_address (a : address_t) : List Nat :=
  encodeBytesLE 16 a.peer ++ encodeInt32 a.thread ++ encodeBytesLE 8 a.mailbox_id

/-- Modelled from the spec: deserialization of an address reads the three
fields back in the same order. -/
def decode_address (l : List Nat) : Option (address_t × List Nat) :=
  (decodeBytesLE 16 l).bind fun pl =>
    (decodeInt32 pl.2).bind fun tl =>
      (decodeBytesLE 8 tl.2).map fun il =>
        (⟨pl.1, tl.1, il.1⟩, il.2)

/-- A registered mailbox as seen by the manager's delivery paths: the peer
returned by `get_address()` (the manager's local peer recorded at
registration) and whether the read-callback's `get_local_delivery_cb()`
returns a non-null pointer. -/
structure mailbox_info_t where
  peer : Nat
  has_local_delivery_cb : Bool
deriving DecidableEq, Repr

/-- One thread's slot of `one_per_thread_t<mailbox_table_t>`: the next fresh
mailbox id and the `std::map<id_t, raw_mailbox_t *>` of live mailboxes. -/
structure mailbox_table_t where
  next_mailbox_id : Nat
  mailboxes : List (Nat × mailbox_info_t)
deriving DecidableEq, Repr

/-- Embedding of `mailbox_table_t::find_mailbox`: look the id up in the map,
returning the mailbox or null (`none`). -/
def mailbox_table_t.find_mailbox (t : mailbox_table_t) (id : Nat) :
    Option mailbox_info_t :=
  match t.mailboxes.find? (fun p => p.1 == id) with
  | some p => some p.2
  | none => none

/-- The record of one task spawned by `coro_t::spawn_now_dangerously` in
`try_local_delivery`: the bound arguments of
`local_delivery_coroutine` plus the thread the coroutine starts on (its
home thread, the caller's current thread). -/
structure local_delivery_task_t where
  start_thread : Int
  dest_thread : Int
  dest_id : Nat
  args : List Nat
deriving DecidableEq, Repr

/-- Embedding of `mailbox_manager_t::try_local_delivery` (mailbox.hpp,
lines 170-196). `mailbox_tables` maps each thread to its table;
`current_thread` is `get_thread_id().threadnum`, the thread the caller runs
on, so `mailbox_tables.get()` is `mailbox_tables current_thread`. The
second component models the side effect: the task handed to
`coro_t::spawn_now_dangerously`, or `none` when nothing was spawned. -/
def mailbox_manager_try_local_delivery
    (mailbox_tables : Int → mailbox_table_t) (current_thread : Int)
    (dest : address_t) (data : List Nat) :
    Bool × Option local_delivery_task_t :=
  match (mailbox_tables current_thread).find_mailbox dest.mailbox_id with
  | some potential_dest_mbox =>
    if potential_dest_mbox.peer ≠ dest.peer then
      (false, none)
    else
      let dest_thread : Int :=
        if dest.thread = ANY_THREAD then current_thread else dest.thread
      (true, some ⟨current_thread, dest_thread, dest.mailbox_id, data⟩)
  | none => (false, none)

/-- Scheduling-relevant events performed by a local delivery coroutine:
switching threads (`on_thread_t`), an explicit `coro_t::yield`, and the
invocation of the mailbox's typed fast-path callback. -/
inductive coro_event_t
  | rehost (hfrom hto : Int)
  | yield
  | invoke (data : List Nat)
deriving DecidableEq, Repr

/-- True for the events at which the coroutine suspends and control can
return to the scheduler (both `on_thread_t`'s cross-thread switch and the
explicit yield suspend; a callback invocation by itself does not). -/
def coro_event_t.is_suspension : coro_event_t → Bool
  | .rehost _ _ => true
  | .yield => true
  | .invoke _ => false

/-- The outcome of a local delivery coroutine: the message was silently
dropped, the `guarantee(cb != NULL)` aborted the process, or the callback
was invoked with the given arguments. -/
inductive delivery_outcome_t
  | dropped
  | fatal_guarantee_failure
  | invoked (data : List Nat)
deriving DecidableEq, Repr

/-- Embedding of `mailbox_manager_t::local_delivery_coroutine` (mailbox.hpp,
lines 198-220) as the trace of its events and its outcome. `mailbox_tables`
is the table state at the time the coroutine resumes and performs its
lookup (possibly different from the state at spawn time); `home_thread` is
the thread the coroutine started on, so `rethreader.home_thread() ==
dest_thread` is `home_thread = dest_thread`, and the lookup
`mailbox_tables.get()` runs on `dest_thread` after `on_thread_t`. -/
def local_delivery_coroutine
    (mailbox_tables : Int → mailbox_table_t)
    (home_thread : Int) (dest_thread : Int) (dest : Nat) (data : List Nat) :
    List coro_event_t × delivery_outcome_t :=
  let pre : List coro_event_t :=
    (if home_thread = dest_thread then [] else
      [coro_event_t.rehost home_thread dest_thread]) ++
    (if home_thread = dest_thread then [coro_event_t.yield] else [])
  match (mailbox_tables dest_thread).find_mailbox dest with
  | none => (pre, delivery_outcome_t.dropped)
  | some mbox =>
    if mbox.has_local_delivery_cb then
      (pre ++ [coro_event_t.invoke data], delivery_outcome_t.invoked data)
    else
      (pre, delivery_outcome_t.fatal_guarantee_failure)

/-- The synchronous part of a coroutine trace: the events that happen inside
the spawning caller's stack frame, before the first suspension. -/
def synchronous_segment (tr : List coro_event_t) : List coro_event_t :=
  tr.takeWhile (fun e => !e.is_suspension)

/-- An empty per-thread table function: no mailbox is registered anywhere
(for instance after every mailbox has been destroyed). -/
def empty_mailbox_tables : Int → mailbox_table_t :=
  fun _ => ⟨1, []⟩

/-- Modelled from the spec: the body of `raw_mailbox_t::~raw_mailbox_t` and
the `auto_drainer_t` it waits on live in `mailbox.cc` and
`concurrency/auto_drainer.hpp`, which are not part of the sources; only the
declaration (mailbox.hpp lines 95-96) and the member order (callback before
drainer, lines 47-53) are. Spec 4.3/4.4: the destructor first unregisters
the id, then waits on the drainer until all outstanding deliveries have
exited, and only then releases the handler. The lifecycle of one mailbox is
modelled as a state: whether its id is still registered, the drainer's
count of handler invocations begun and not yet returned, whether the
handler has been released, and whether the destructor has returned. -/
structure mailbox_lifecycle_state_t where
  registered : Bool
  outstanding_deliveries : Nat
  handler_released : Bool
  destructor_returned : Bool
deriving DecidableEq, Repr

/-- Modelled from the spec: the events that affect one mailbox's lifecycle.
`begin_delivery` / `end_delivery` bracket one handler invocation (a drainer
guard acquisition and release); `dtor_unregister` is the destructor's first
step; `dtor_release_handler` is the drainer becoming idle and the handler
being released; `dtor_return` is the destructor returning. -/
inductive lifecycle_event_t
  | begin_delivery
  | end_delivery
  | dtor_unregister
  | dtor_release_handler
  | dtor_return
deriving DecidableEq, Repr

/-- Modelled from the spec: the guarded transition relation of the mailbox
lifecycle. A delivery can begin only while the mailbox is registered; the
handler is released only after unregistration and only once the drainer
count is zero; the destructor returns only after the handler was released. -/
def lifecycle_step (s : mailbox_lifecycle_state_t) :
    lifecycle_event_t → Option mailbox_lifecycle_state_t
  | .begin_delivery =>
    if s.registered = true then
      some { s with outstanding_deliveries := s.outstanding_deliveries + 1 }
    else none
  | .end_delivery =>
    if 0 < s.outstanding_deliveries then
      some { s with outstanding_deliveries := s.outstanding_deliveries - 1 }
    else none
  | .dtor_unregister =>
    if s.registered = true then
      some { s with registered := false }
    else none
  | .dtor_release_handler =>
    if s.registered = false ∧ s.outstanding_deliveries = 0 ∧
        s.handler_released = false then
      some { s with handler_released := true }
    else none
  | .dtor_return =>
    if s.handler_released = true ∧ s.destructor_returned = false then
      some { s with destructor_returned := true }
    else none

/-- A freshly constructed, registered mailbox with no delivery in flight. -/
def initial_lifecycle_state : mailbox_lifecycle_state_t :=
  ⟨true, 0, false, false⟩

/-- Run a sequence of lifecycle events from a state; `none` when some event
fires while its guard does not hold. -/
def run_lifecycle (s : mailbox_lifecycle_state_t) :
    List lifecycle_event_t → Option mailbox_lifecycle_state_t
  | [] => some s
  | e :: es =>
    match lifecycle_step s e with
    | some s2 => run_lifecycle s2 es
    | none => none

/-- The inductive invariant of the lifecycle: once the handler was released
the mailbox is unregistered and drained, and the destructor can only have
returned after the handler was released. -/
def lifecycle_invariant (s : mailbox_lifecycle_state_t) : Prop :=
  (s.handler_released = true →
    s.registered = false ∧ s.outstanding_deliveries = 0) ∧
  (s.destructor_returned = true → s.handler_released = true)

/-- The result of `func_t::call`: a value, the arity-check failure raised by
`rcheck(args.size() == argptrs.size() || argptrs.size() == 0, ...)` with
the expected and found counts of its message, or an error propagated from
evaluating the body (including a `datum_exc_t` re-raised by `rfail`). -/
inductive func_call_result_t
  | ok (v : Nat)
  | arity_error (expected : Nat) (found : Nat)
  | runtime_error (msg : String)
deriving DecidableEq, Repr

/-- A non-JS `ql::func_t` (`js_parent == 0` branch of `func_t::call`):
`argptrs_len` is `argptrs.size()`, the number of declared parameters (the
constructor pushes exactly one slot per declared variable, func.cc lines
48-55); `body_eval` abstracts `body->eval(false)` as a function of the
values stored in `argptrs`, returning a value or failing. -/
structure func_t where
  argptrs_len : Nat
  body_eval : List Nat → Except String Nat

/-- Embedding of the non-JS branch of `ql::func_t::call` (func.cc lines
84-96 with the catch of lines 97-99): check the arity, store the arguments
into `argptrs` (`args.take argptrs_len` — when `argptrs_len = 0` the copy
loop stores nothing), and evaluate the body. Datums are modelled as `Nat`. -/
def func_t.call (f : func_t) (args : List Nat) : func_call_result_t :=
  if args.length = f.argptrs_len ∨ f.argptrs_len = 0 then
    match f.body_eval (args.take f.argptrs_len) with
    | Except.ok v => func_call_result_t.ok v
    | Except.error m => func_call_result_t.runtime_error m
  else
    func_call_result_t.arity_error f.argptrs_len args.length

/-- Concrete fixture: a single mailbox with id 5 and peer 7 registered in
thread 0's table, with a non-null fast-path callback. -/
def c1_tables : Int → mailbox_table_t :=
  fun t => if t = 0 then ⟨6, [(5, ⟨7, true⟩)]⟩ else ⟨1, []⟩

/-- Concrete fixture: the address of the `c1_tables` mailbox. -/
def c1_address : address_t := ⟨7, 0, 5⟩

/-- Concrete fixture: a single mailbox with id 5 and peer 7 registered in
thread 2's table; every other thread's table is empty. -/
def c2_tables : Int → mailbox_table_t :=
  fun t => if t = 2 then ⟨6, [(5, ⟨7, true⟩)]⟩ else ⟨1, []⟩

/-- Concrete fixture: the address of the `c2_tables` mailbox on thread 2. -/
def c2_address : address_t := ⟨7, 2, 5⟩

/-- Concrete fixture: a single mailbox with id 5 and peer 7 registered in
thread 1's table. -/
def c3_tables : Int → mailbox_table_t :=
  fun t => if t = 1 then ⟨6, [(5, ⟨7, true⟩)]⟩ else ⟨1, []⟩

/-- Concrete fixture: a mailbox with id 5 registered in thread 0's table
whose stored peer is 9. -/
def c5_tables : Int → mailbox_table_t :=
  fun t => if t = 0 then ⟨6, [(5, ⟨9, true⟩)]⟩ else ⟨1, []⟩

/-- Concrete fixture: a single mailbox with id 5 and peer 7 registered in
thread 3's table. -/
def c6_tables : Int → mailbox_table_t :=
  fun t => if t = 3 then ⟨6, [(5, ⟨7, true⟩)]⟩ else ⟨1, []⟩

/-- Concrete fixture: a mailbox with id 5 and peer 7 registered in thread
0's table whose read-callback has a null fast-path callback. -/
def c9_tables : Int → mailbox_table_t :=
  fun t => if t = 0 then ⟨6, [(5, ⟨7, false⟩)]⟩ else ⟨1, []⟩

/-! Theorems. -/

theorem decodeBytesLE_encodeBytesLE (k : Nat) (n : Nat) (rest : List Nat)
    (h : n < 256 ^ k) :
    decodeBytesLE k (encodeBytesLE k n ++ rest) = some (n, rest) := by
  induction k generalizing n with
  | zero =>
    have hn : n = 0 := by simpa using h
    subst hn
    simp [encodeBytesLE, decodeBytesLE]
  | succ k ih =>
    have h2 : n / 256 < 256 ^ k := by
      rw [Nat.div_lt_iff_lt_mul (by norm_num)]
      calc n < 256 ^ (k + 1) := h
        _ = 256 ^ k * 256 := by ring
    simp [encodeBytesLE, decodeBytesLE, ih (n / 256) h2, Nat.mod_add_div]

theorem decodeInt32_encodeInt32 (i : Int) (rest : List Nat)
    (h1 : -(2 ^ 31) ≤ i) (h2 : i < 2 ^ 31) :
    decodeInt32 (encodeInt32 i ++ rest) = some (i, rest) := by
  have hnn : (0 : Int) ≤ i % (2 ^ 32 : Int) := Int.emod_nonneg i (by norm_num)
  have hlt : i % (2 ^ 32 : Int) < (2 ^ 32 : Int) :=
    Int.emod_lt_of_pos i (by norm_num)
  have hmod : i % (2 ^ 32 : Int) = if 0 ≤ i then i else i + 2 ^ 32 := by
    split <;> omega
  have hn : (i % (2 ^ 32 : Int)).toNat < 256 ^ 4 := by
    have h4 : (256 : Nat) ^ 4 = 2 ^ 32 := by norm_num
    omega
  unfold encodeInt32 decodeInt32
  rw [decodeBytesLE_encodeBytesLE 4 _ rest hn]
  have hcast : ((i % (2 ^ 32 : Int)).toNat : Int) = i % (2 ^ 32 : Int) :=
    Int.toNat_of_nonneg hnn
  by_cases hc : (i % (2 ^ 32 : Int)).toNat < 2 ^ 31
  · simp only [hc, if_true, Option.some.injEq, Prod.mk.injEq]
    exact ⟨by omega, trivial⟩
  · simp only [hc, if_false, Option.some.injEq, Prod.mk.injEq]
    exact ⟨by omega, trivial⟩

/-- C8: For every address A (including nil addresses and addresses with
thread == ANY_THREAD), decoding the canonical serialization of A yields an
address equal to A, where serialization is the three fields peer, thread,
mailbox_id in order. (Range side conditions: the uuid is 16 bytes, the
thread an `int32`, the mailbox id a `uint64`.) -/
theorem address_serialization_round_trip (a : address_t) (rest : List Nat)
    (hp : a.peer < 2 ^ 128) (ht1 : -(2 ^ 31) ≤ a.thread)
    (ht2 : a.thread < 2 ^ 31) (hm : a.mailbox_id < 2 ^ 64) :
    decode_address (encode_address a ++ rest) = some (a, rest) := by
  have hp16 : a.peer < 256 ^ 16 := by norm_num at hp ⊢; omega
  have hm8 : a.mailbox_id < 256 ^ 8 := by norm_num at hm ⊢; omega
  unfold encode_address decode_address
  rw [List.append_assoc, List.append_assoc]
  simp [decodeBytesLE_encodeBytesLE 16 a.peer _ hp16,
    decodeInt32_encodeInt32 a.thread _ ht1 ht2,
    decodeBytesLE_encodeBytesLE 8 a.mailbox_id rest hm8]

/-- Witness for C8 at the spec's concrete input
`(peer=7, thread=-1 (= ANY_THREAD), mailbox_id=2^40+3)`. -/
theorem address_serialization_round_trip_witness :
    decode_address
      (encode_address ⟨7, ANY_THREAD, 2 ^ 40 + 3⟩ ++ []) =
      some (⟨7, ANY_THREAD, 2 ^ 40 + 3⟩, []) :=
  address_serialization_round_trip ⟨7, ANY_THREAD, 2 ^ 40 + 3⟩ []
    (by norm_num) (by norm_num [ANY_THREAD]) (by norm_num [ANY_THREAD])
    (by norm_num)

/-- C1: For every address A and arguments, `try_local_delivery(A, args...)`
returns true iff A resolved as a local mailbox (found in the caller's
thread's table with matching peer), iff a delivery task was started
synchronously; when it returns false it performs no side effects (no task
spawned); and a true return does not imply the handler ultimately runs:
every spawned task, when resumed after all mailboxes have been destroyed,
drops the message without invoking anything. -/
theorem try_local_delivery_contract
    (mailbox_tables : Int → mailbox_table_t) (current_thread : Int)
    (dest : address_t) (data : List Nat) :
    ((mailbox_manager_try_local_delivery mailbox_tables current_thread
        dest data).1 = true ↔
      ∃ mbox, (mailbox_tables current_thread).find_mailbox dest.mailbox_id =
          some mbox ∧ mbox.peer = dest.peer) ∧
    ((mailbox_manager_try_local_delivery mailbox_tables current_thread
        dest data).1 = true ↔
      (mailbox_manager_try_local_delivery mailbox_tables current_thread
        dest data).2.isSome = true) ∧
    ((mailbox_manager_try_local_delivery mailbox_tables current_thread
        dest data).1 = false →
      (mailbox_manager_try_local_delivery mailbox_tables current_thread
        dest data).2 = none) ∧
    (∀ task, (mailbox_manager_try_local_delivery mailbox_tables current_thread
        dest data).2 = some task →
      (local_delivery_coroutine empty_mailbox_tables task.start_thread
          task.dest_thread task.dest_id task.args).2 =
        delivery_outcome_t.dropped ∧
      ∀ d, coro_event_t.invoke d ∉
        (local_delivery_coroutine empty_mailbox_tables task.start_thread
          task.dest_thread task.dest_id task.args).1) := by
  have hdrop : ∀ (h dt : Int) (id : Nat) (ar : List Nat),
      (local_delivery_coroutine empty_mailbox_tables h dt id ar).2 =
        delivery_outcome_t.dropped ∧
      ∀ d, coro_event_t.invoke d ∉
        (local_delivery_coroutine empty_mailbox_tables h dt id ar).1 := by
    intro h dt id ar
    constructor
    · simp [local_delivery_coroutine, empty_mailbox_tables,
        mailbox_table_t.find_mailbox]
    · intro d
      simp only [local_delivery_coroutine, empty_mailbox_tables,
        mailbox_table_t.find_mailbox, List.find?_nil]
      split <;> simp
  cases hfind : (mailbox_tables current_thread).find_mailbox dest.mailbox_id with
  | none =>
    refine ⟨?_, ?_, ?_, ?_⟩ <;>
      simp [mailbox_manager_try_local_delivery, hfind]
  | some mbox =>
    by_cases hp : mbox.peer = dest.peer
    · refine ⟨?_, ?_, ?_, ?_⟩
      · simp [mailbox_manager_try_local_delivery, hfind, hp]
      · simp [mailbox_manager_try_local_delivery, hfind, hp]
      · simp [mailbox_manager_try_local_delivery, hfind, hp]
      · intro task _
        exact hdrop task.start_thread task.dest_thread task.dest_id task.args
    · refine ⟨?_, ?_, ?_, ?_⟩ <;>
        simp [mailbox_manager_try_local_delivery, hfind, hp]

/-- Witness for C1: on the concrete fixture the call returns true and a
task was spawned; applying the second equivalence at that input. -/
theorem try_local_delivery_contract_witness :
    (mailbox_manager_try_local_delivery c1_tables 0 c1_address
      [42]).2.isSome = true :=
  (try_local_delivery_contract c1_tables 0 c1_address [42]).2.1.mp (by decide)

/-- C2 counterexample: a mailbox with id 5 and peer 7 lives on thread 2
(second conjunct: it is registered in thread 2's table), yet calling
`try_local_delivery` with its address from thread 0 does not return true —
the lookup runs against thread 0's (empty) table. -/
theorem cross_thread_try_local_delivery_cex :
    ¬ ((mailbox_manager_try_local_delivery c2_tables 0 c2_address
        [1]).1 = true) ∧
    (c2_tables 2).find_mailbox c2_address.mailbox_id = some ⟨7, true⟩ := by
  decide

/-- C2 amended: for a mailbox registered on thread t and absent from the
calling thread's registry (in particular any mailbox living on a thread
other than the caller's), `try_local_delivery` called from the other
thread returns false and starts no delivery task, so the handler is not
invoked through this path and the caller falls back to the full `send`. -/
theorem cross_thread_try_local_delivery_declines
    (mailbox_tables : Int → mailbox_table_t) (t cur : Int)
    (dest : address_t) (data : List Nat) (mbox : mailbox_info_t)
    (_hlive : (mailbox_tables t).find_mailbox dest.mailbox_id = some mbox)
    (_hother : t ≠ cur)
    (habsent : (mailbox_tables cur).find_mailbox dest.mailbox_id = none) :
    mailbox_manager_try_local_delivery mailbox_tables cur dest data =
      (false, none) := by
  simp [mailbox_manager_try_local_delivery, habsent]

/-- Witness for C2 (amended) at the concrete fixture: mailbox on thread 2,
caller on thread 0. -/
theorem cross_thread_try_local_delivery_declines_witness :
    mailbox_manager_try_local_delivery c2_tables 0 c2_address [1] =
      (false, none) :=
  cross_thread_try_local_delivery_declines c2_tables 2 0 c2_address [1]
    ⟨7, true⟩ (by decide) (by decide) (by decide)

/-- C3: In every local delivery task whose resolved destination thread
equals the thread the task started on, the coroutine yields at least once
before invoking the mailbox's handler (the trace starts with the explicit
yield), and the handler is never invoked within the spawning caller's
synchronous stack frame. -/
theorem local_delivery_yields_before_handler_when_same_thread
    (mailbox_tables : Int → mailbox_table_t) (home dest_thread : Int)
    (dest : Nat) (data : List Nat) (h : dest_thread = home) :
    (∃ tl, (local_delivery_coroutine mailbox_tables home dest_thread dest
        data).1 = coro_event_t.yield :: tl) ∧
    (∀ d, coro_event_t.invoke d ∉
      synchronous_segment ((local_delivery_coroutine mailbox_tables home
        dest_thread dest data).1)) := by
  subst h
  have htrace : ∃ tl, (local_delivery_coroutine mailbox_tables dest_thread
      dest_thread dest data).1 = coro_event_t.yield :: tl := by
    cases hfind : (mailbox_tables dest_thread).find_mailbox dest with
    | none => exact ⟨[], by simp [local_delivery_coroutine, hfind]⟩
    | some mbox =>
      by_cases hcb : mbox.has_local_delivery_cb
      · exact ⟨[coro_event_t.invoke data],
          by simp [local_delivery_coroutine, hfind, hcb]⟩
      · exact ⟨[], by simp [local_delivery_coroutine, hfind, hcb]⟩
  refine ⟨htrace, ?_⟩
  obtain ⟨tl, htl⟩ := htrace
  intro d
  rw [htl]
  simp [synchronous_segment, coro_event_t.is_suspension]

/-- Witness for C3 at a concrete same-thread delivery: the handler is not
invoked inside the synchronous segment. -/
theorem local_delivery_yields_before_handler_when_same_thread_witness :
    coro_event_t.invoke [42] ∉
      synchronous_segment ((local_delivery_coroutine c3_tables 1 1 5
        [42]).1) :=
  (local_delivery_yields_before_handler_when_same_thread c3_tables 1 1 5
    [42] rfl).2 [42]

/-- C4: After re-hosting (and yielding), the local delivery coroutine
re-checks the destination thread's registry; when the mailbox id is absent
at that point the delivery is silently dropped and no handler invocation
appears in the trace. -/
theorem local_delivery_drops_when_mailbox_absent
    (mailbox_tables : Int → mailbox_table_t) (home dest_thread : Int)
    (dest : Nat) (data : List Nat)
    (h : (mailbox_tables dest_thread).find_mailbox dest = none) :
    (local_delivery_coroutine mailbox_tables home dest_thread dest data).2 =
      delivery_outcome_t.dropped ∧
    ∀ d, coro_event_t.invoke d ∉
      (local_delivery_coroutine mailbox_tables home dest_thread dest
        data).1 := by
  constructor
  · simp [local_delivery_coroutine, h]
  · intro d
    simp only [local_delivery_coroutine, h]
    split <;> simp

/-- Witness for C4: delivery to id 5 after every mailbox is gone. -/
theorem local_delivery_drops_when_mailbox_absent_witness :
    (local_delivery_coroutine empty_mailbox_tables 0 0 5 [42]).2 =
      delivery_outcome_t.dropped :=
  (local_delivery_drops_when_mailbox_absent empty_mailbox_tables 0 0 5 [42]
    (by decide)).1

/-- C5: When `try_local_delivery` finds a mailbox with the given id in the
caller's thread's registry but its stored peer differs from the address's
peer, the delivery is declined: the function returns false and spawns
nothing. -/
theorem try_local_delivery_declines_on_peer_mismatch
    (mailbox_tables : Int → mailbox_table_t) (cur : Int)
    (dest : address_t) (data : List Nat) (mbox : mailbox_info_t)
    (hfind : (mailbox_tables cur).find_mailbox dest.mailbox_id = some mbox)
    (hpeer : mbox.peer ≠ dest.peer) :
    mailbox_manager_try_local_delivery mailbox_tables cur dest data =
      (false, none) := by
  simp [mailbox_manager_try_local_delivery, hfind, hpeer]

/-- Witness for C5: id 5 is registered with stored peer 9, the address
claims peer 7. -/
theorem try_local_delivery_declines_on_peer_mismatch_witness :
    mailbox_manager_try_local_delivery c5_tables 0 ⟨7, 0, 5⟩ [1] =
      (false, none) :=
  try_local_delivery_declines_on_peer_mismatch c5_tables 0 ⟨7, 0, 5⟩ [1]
    ⟨9, true⟩ (by decide) (by decide)

/-- C6: Whenever `try_local_delivery` spawns a delivery task, the resolved
destination thread is the caller's current thread when the address carries
the ANY_THREAD sentinel, and exactly the address's thread field
otherwise. -/
theorem try_local_delivery_resolves_any_thread
    (mailbox_tables : Int → mailbox_table_t) (cur : Int)
    (dest : address_t) (data : List Nat) (task : local_delivery_task_t)
    (h : (mailbox_manager_try_local_delivery mailbox_tables cur dest
      data).2 = some task) :
    task.dest_thread =
      if dest.thread = ANY_THREAD then cur else dest.thread := by
  cases hfind : (mailbox_tables cur).find_mailbox dest.mailbox_id with
  | none => simp [mailbox_manager_try_local_delivery, hfind] at h
  | some mbox =>
    by_cases hp : mbox.peer = dest.peer
    · simp only [mailbox_manager_try_local_delivery, hfind, hp, ne_eq,
        not_true_eq_false, if_false, Option.some.injEq] at h
      subst h
      rfl
    · simp [mailbox_manager_try_local_delivery, hfind, hp] at h

/-- Witness for C6: an ANY_THREAD address delivered from thread 3 resolves
to thread 3. -/
theorem try_local_delivery_resolves_any_thread_witness :
    (⟨3, 3, 5, [42]⟩ : local_delivery_task_t).dest_thread =
      if (⟨7, ANY_THREAD, 5⟩ : address_t).thread = ANY_THREAD then 3
      else (⟨7, ANY_THREAD, 5⟩ : address_t).thread :=
  try_local_delivery_resolves_any_thread c6_tables 3 ⟨7, ANY_THREAD, 5⟩
    [42] ⟨3, 3, 5, [42]⟩ (by decide)

/-- Helper: `lifecycle_invariant` is preserved by every enabled step. -/
theorem lifecycle_invariant_preserved
    (s s2 : mailbox_lifecycle_state_t) (e : lifecycle_event_t)
    (hinv : lifecycle_invariant s) (hstep : lifecycle_step s e = some s2) :
    lifecycle_invariant s2 := by
  obtain ⟨h1, h2⟩ := hinv
  cases e <;> simp only [lifecycle_step] at hstep <;> split at hstep <;>
    simp only [Option.some.injEq, reduceCtorEq] at hstep <;> subst hstep <;>
    constructor <;> simp_all [lifecycle_invariant]

/-- Helper: `lifecycle_invariant` holds in every state reachable by a run. -/
theorem lifecycle_invariant_run
    (es : List lifecycle_event_t) (s s2 : mailbox_lifecycle_state_t)
    (hinv : lifecycle_invariant s) (hrun : run_lifecycle s es = some s2) :
    lifecycle_invariant s2 := by
  induction es generalizing s with
  | nil =>
    simp only [run_lifecycle, Option.some.injEq] at hrun
    subst hrun; exact hinv
  | cons e es ih =>
    simp only [run_lifecycle] at hrun
    cases hstep : lifecycle_step s e with
    | none => rw [hstep] at hrun; exact absurd hrun (by simp)
    | some s1 =>
      rw [hstep] at hrun
      exact ih s1 (lifecycle_invariant_preserved s s1 e hinv hstep) hrun

/-- C7: In every lifecycle run of a mailbox from its construction, once the
handler has been released the mailbox id is unregistered and every handler
invocation begun before unregistration has returned (drainer count zero);
the destructor returns only after the handler was released and the drain
completed; and once unregistered, no new delivery can begin. -/
theorem mailbox_destructor_drains_before_release
    (es : List lifecycle_event_t) (s : mailbox_lifecycle_state_t)
    (h : run_lifecycle initial_lifecycle_state es = some s) :
    (s.handler_released = true →
      s.registered = false ∧ s.outstanding_deliveries = 0) ∧
    (s.destructor_returned = true →
      s.handler_released = true ∧ s.outstanding_deliveries = 0) ∧
    (s.registered = false →
      lifecycle_step s lifecycle_event_t.begin_delivery = none) := by
  have hinit : lifecycle_invariant initial_lifecycle_state := by
    constructor <;> simp [initial_lifecycle_state]
  obtain ⟨h1, h2⟩ := lifecycle_invariant_run es initial_lifecycle_state s
    hinit h
  refine ⟨h1, fun hr => ⟨h2 hr, (h1 (h2 hr)).2⟩, fun hreg => ?_⟩
  simp [lifecycle_step, hreg]

/-- Witness for C7: a run with two deliveries in flight at destructor
entry; the destructor returns only in the drained final state. -/
theorem mailbox_destructor_drains_before_release_witness :
    (⟨false, 0, true, true⟩ : mailbox_lifecycle_state_t).handler_released =
        true ∧
      (⟨false, 0, true, true⟩ :
        mailbox_lifecycle_state_t).outstanding_deliveries = 0 :=
  (mailbox_destructor_drains_before_release
    [lifecycle_event_t.begin_delivery, lifecycle_event_t.begin_delivery,
      lifecycle_event_t.dtor_unregister, lifecycle_event_t.end_delivery,
      lifecycle_event_t.end_delivery, lifecycle_event_t.dtor_release_handler,
      lifecycle_event_t.dtor_return]
    ⟨false, 0, true, true⟩ (by decide)).2.1 rfl

/-- C9: Whenever the local delivery coroutine finds a registered mailbox at
delivery time, a null fast-path callback makes the delivery a fatal
`guarantee` failure — not a silent drop and not an invocation — while a
non-null callback is invoked with the provided arguments; the invocation
therefore never dereferences a null callback. -/
theorem local_delivery_guarantees_nonnull_callback
    (mailbox_tables : Int → mailbox_table_t) (home dest_thread : Int)
    (dest : Nat) (data : List Nat) (mbox : mailbox_info_t)
    (hfind : (mailbox_tables dest_thread).find_mailbox dest = some mbox) :
    (mbox.has_local_delivery_cb = false →
      (local_delivery_coroutine mailbox_tables home dest_thread dest
        data).2 = delivery_outcome_t.fatal_guarantee_failure ∧
      ∀ d, coro_event_t.invoke d ∉
        (local_delivery_coroutine mailbox_tables home dest_thread dest
          data).1) ∧
    (mbox.has_local_delivery_cb = true →
      (local_delivery_coroutine mailbox_tables home dest_thread dest
        data).2 = delivery_outcome_t.invoked data) := by
  constructor
  · intro hcb
    constructor
    · simp [local_delivery_coroutine, hfind, hcb]
    · intro d
      simp only [local_delivery_coroutine, hfind, hcb]
      split <;> simp_all
  · intro hcb
    simp [local_delivery_coroutine, hfind, hcb]

/-- Witness for C9: the fixture mailbox whose fast-path callback is null is
found at delivery time and the outcome is the fatal guarantee failure. -/
theorem local_delivery_guarantees_nonnull_callback_witness :
    (local_delivery_coroutine c9_tables 0 0 5 [42]).2 =
      delivery_outcome_t.fatal_guarantee_failure :=
  ((local_delivery_guarantees_nonnull_callback c9_tables 0 0 5 [42]
    ⟨7, false⟩ (by decide)).1 rfl).1

/-- C10: For every non-JS func and argument list, the call raises the arity
error exactly when the number of arguments differs from the number of
declared parameters and the function declares at least one parameter; a
zero-parameter function accepts any number of arguments without an arity
error. -/
theorem func_call_arity_check (f : func_t) (args : List Nat) :
    f.call args = func_call_result_t.arity_error f.argptrs_len args.length ↔
      (args.length ≠ f.argptrs_len ∧ f.argptrs_len ≠ 0) := by
  unfold func_t.call
  by_cases h : args.length = f.argptrs_len ∨ f.argptrs_len = 0
  · rw [if_pos h]
    cases hb : f.body_eval (args.take f.argptrs_len) <;> simp [hb] <;> tauto
  · rw [if_neg h]
    push_neg at h
    simp [h]

/-- Witness for C10: a two-parameter function called with one argument
raises the arity error. -/
theorem func_call_arity_check_witness :
    func_t.call ⟨2, fun _ => Except.ok 0⟩ [1] =
      func_call_result_t.arity_error 2 1 :=
  (func_call_arity_check ⟨2, fun _ => Except.ok 0⟩ [1]).mpr
    ⟨by decide, by decide⟩
